import Mathlib

/-!
# Verification of the PoeticExchange real-time messaging layer

Shallow embedding of the websocket chat subsystem of the repository:

* the per-socket frame handler registered in `registerRoutes`
  (`wss.on('connection', ...)` — the `auth` / `message` / `mark_read`
  dispatch, the per-frame `catch`, and the `close` handler), and
* the message operations of `MemStorage` (`createMessage`,
  `markMessagesAsRead`) from `server/storage.ts`, together with the
  drizzle-zod `insertMessageSchema` from the shared schema module.

Conventions of the embedding:

* JSON field values are modelled by `JVal` (undefined / null / string /
  number / boolean).  Numbers are modelled as integers: no claim under
  consideration distinguishes fractional payloads, and the schema columns
  are integer columns.  JavaScript truthiness is `JVal.truthy`.
* The `connections` map (`Map<userId, WebSocket>`) is an association list
  with JS `Map` semantics (`set` overwrites in place, `delete` removes,
  `get` looks up under SameValueZero equality, here plain decidable
  equality since no NaN is representable).
* Sockets are identified by `Nat`.  The per-socket closure variable
  `let userId: number | null = null` lives in `SysState.sockUser`
  (absent socket = fresh, i.e. `null`).
* A handler invocation is an atomic step producing the successor state
  and a trace of `Action`s: store calls and socket writes, in program
  order.  Socket writes are fire-and-forget in the `ws` library (a write
  failure on an OPEN socket surfaces asynchronously, never as an
  exception in the handler), so write outcomes are not inputs of the
  step; `isOpen` models each socket's `readyState === WebSocket.OPEN`
  at the moment of the step.
* `MemStorage.createMessage` itself never rejects, but it is called
  through the `IStorage` interface as an awaited promise; the boolean
  `createOk` parameter models whether that awaited call resolves
  (`true` instantiates the in-memory store's behaviour, `false` the
  rejection path caught by the per-frame `catch`).
-/

namespace Chat

/-- A JSON/JavaScript field value as seen by the handler after
`JSON.parse`.  `undef` stands for an absent field (`undefined`). -/
inductive JVal where
  | undef : JVal
  | null : JVal
  | str : String → JVal
  | num : Int → JVal
  | boolean : Bool → JVal
deriving DecidableEq, Repr

/-- JavaScript truthiness of a field value (`if (userId)`,
`data.imageData || null`).  `undefined`, `null`, `""`, `0` and `false`
are falsy. -/
def JVal.truthy : JVal → Bool
  | .undef => false
  | .null => false
  | .str s => decide (s ≠ "")
  | .num n => decide (n ≠ 0)
  | .boolean b => b

/-- The JavaScript expression `v || null` as used for
`imageData: data.imageData || null`. -/
def jsOrNull (v : JVal) : JVal :=
  if v.truthy then v else JVal.null

/-- A parsed inbound frame: the fields of `data` that the handler reads.
An absent field is `JVal.undef`. -/
structure Data where
  type : JVal
  userId : JVal
  receiverId : JVal
  content : JVal
  imageData : JVal
  senderId : JVal
deriving DecidableEq, Repr

/-- An inbound socket event: either `JSON.parse` throws (`malformed`), or
it yields a parsed object. -/
inductive Inbound where
  | malformed : Inbound
  | frame : Data → Inbound
deriving DecidableEq, Repr

/-- A persisted message, the `Message` row shape
`{id, senderId, receiverId, content, imageData, createdAt, isRead}`.
`createdAt` is a timestamp modelled as a `Nat`. -/
structure Message where
  id : Nat
  senderId : Int
  receiverId : Int
  content : String
  imageData : Option String
  createdAt : Nat
  isRead : Bool
deriving DecidableEq, Repr

/-- The payload accepted by `insertMessageSchema` (the picked columns
`senderId`, `receiverId`, `content`, `imageData`). -/
structure InsertMessage where
  senderId : Int
  receiverId : Int
  content : String
  imageData : Option String
deriving DecidableEq, Repr

/-- The message part of `MemStorage`: the `messages` map (id-keyed, in
insertion order) and `nextMessageId`. -/
structure Store where
  messages : List Message
  nextMessageId : Nat
deriving DecidableEq, Repr

/-- `MemStorage.createMessage`: assigns the next id and the creation
time, sets `isRead: false`, and applies `insertMessage.imageData || null`
(an empty-string payload is coerced to null).  Returns the persisted
message and the successor store. -/
def Store.createMessage (st : Store) (im : InsertMessage) (now : Nat) :
    Message × Store :=
  let stored : Message :=
    { id := st.nextMessageId
      senderId := im.senderId
      receiverId := im.receiverId
      content := im.content
      imageData :=
        match im.imageData with
        | some s => if s = "" then none else some s
        | none => none
      createdAt := now
      isRead := false }
  (stored, { messages := st.messages ++ [stored], nextMessageId := st.nextMessageId + 1 })

/-- The loop body of `MemStorage.markMessagesAsRead`: an unread message
matching the (receiver, sender) pair is replaced by a copy with
`isRead: true`, any other message is kept. -/
def markReadFun (receiverId senderId : Int) (m : Message) : Message :=
  if m.receiverId = receiverId ∧ m.senderId = senderId ∧ m.isRead = false then
    { m with isRead := true }
  else m

/-- `MemStorage.markMessagesAsRead(receiverId, senderId)`: one pass over
the `messages` map, applying `markReadFun` to every entry in place. -/
def Store.markMessagesAsRead (st : Store) (receiverId senderId : Int) : Store :=
  { messages := st.messages.map (markReadFun receiverId senderId)
    nextMessageId := st.nextMessageId }

/-- `insertMessageSchema.parse` on the object the handler builds:
`senderId` and `receiverId` must be numbers, `content` a string, and
`imageData` a string, null, or absent (the nullable optional column). -/
def insertMessageSchemaParse (senderId receiverId content imageData : JVal) :
    Option InsertMessage :=
  match senderId, receiverId, content with
  | .num sv, .num rv, .str cv =>
      match imageData with
      | .null => some ⟨sv, rv, cv, none⟩
      | .undef => some ⟨sv, rv, cv, none⟩
      | .str iv => some ⟨sv, rv, cv, some iv⟩
      | _ => none
  | _, _, _ => none

/-- The `connections` registry: `Map<userId, WebSocket>` keyed by the
value passed to `connections.set` (the raw `data.userId`). -/
abbrev Conns := List (JVal × Nat)

/-- `Map.prototype.get`. -/
def mapGet : Conns → JVal → Option Nat
  | [], _ => none
  | (k', v) :: rest, k => if k' = k then some v else mapGet rest k

/-- `Map.prototype.set`: overwrite in place if the key exists, else
append. -/
def mapSet : Conns → JVal → Nat → Conns
  | [], k, v => [(k, v)]
  | (k', v') :: rest, k, v =>
      if k' = k then (k, v) :: rest else (k', v') :: mapSet rest k v

/-- `Map.prototype.delete`.  A JS `Map` holds each key at most once, so
removing every occurrence agrees with removing the single entry on any
state that represents a `Map`. -/
def mapDelete : Conns → JVal → Conns
  | [], _ => []
  | (k', v') :: rest, k =>
      if k' = k then mapDelete rest k else (k', v') :: mapDelete rest k

/-- Per-socket closure variables: socket id ↦ current `userId` value.
A socket with no entry is fresh (`userId = null`). -/
abbrev SockUsers := List (Nat × JVal)

/-- Read a socket's `userId` closure variable. -/
def getSockUser : SockUsers → Nat → JVal
  | [], _ => JVal.null
  | (s, u) :: rest, sock => if s = sock then u else getSockUser rest sock

/-- Assign a socket's `userId` closure variable. -/
def setSockUser : SockUsers → Nat → JVal → SockUsers
  | [], sock, u => [(sock, u)]
  | (s, u') :: rest, sock, u =>
      if s = sock then (sock, u) :: rest else (s, u') :: setSockUser rest sock u

/-- The whole server state the websocket layer touches: the registry,
the per-socket closure variables, and the message store. -/
structure SysState where
  conns : Conns
  sockUser : SockUsers
  store : Store
deriving DecidableEq, Repr

/-- An outbound frame written to some socket. The `error` frame also
carries a description string in the source; no claim depends on its
text, so it is elided. -/
inductive OutFrame where
  | message : Message → OutFrame
  | messageSent : Message → OutFrame
  | messagesRead : JVal → OutFrame
  | error : OutFrame
deriving DecidableEq, Repr

/-- An observable action of one handler invocation, in program order:
a store call or a socket write. -/
inductive Action where
  | callCreateMessage : InsertMessage → Action
  | callMarkRead : JVal → JVal → Action
  | send : Nat → OutFrame → Action
deriving DecidableEq, Repr

/-- Deliver-if-online, the shape shared by the recipient push and the
read-receipt notification: look the key up in `connections`; if an entry
exists and its socket's `readyState` is OPEN, write the frame to it,
else do nothing. -/
def routePush (conns : Conns) (isOpen : Nat → Bool) (key : JVal) (f : OutFrame) : List Action :=
  match mapGet conns key with
  | some ws => if isOpen ws then [Action.send ws f] else []
  | none => []

/-- The store update performed by
`storage.markMessagesAsRead(userId, data.senderId)`: the TypeScript
signature takes numbers, and `MemStorage` compares with strict equality,
so a non-number runtime argument matches no stored message and the store
is unchanged. -/
def markReadCall (stm : Store) (u ds : JVal) : Store :=
  match u, ds with
  | JVal.num rv, JVal.num sv => stm.markMessagesAsRead rv sv
  | _, _ => stm

/-- The `ws.on('message', ...)` handler for one inbound event on socket
`sock`, translated branch for branch from the source:

* `JSON.parse` failure is caught and answered with an `error` frame;
* `if (data.type === 'auth')` assigns the closure `userId` and binds it
  in `connections` unconditionally;
* `if (data.type === 'message' && userId)` parses via
  `insertMessageSchema` (a `ZodError` is caught and answered with an
  `error` frame), awaits `createMessage` (a rejection is caught
  likewise), then pushes to the recipient looked up under
  `data.receiverId` when its socket is OPEN, then confirms to the
  sender;
* `if (data.type === 'mark_read' && userId)` awaits
  `markMessagesAsRead(userId, data.senderId)` — under strict equality a
  non-number argument matches no stored message, so the store changes
  only when both are numbers — then notifies the looked-up sender when
  its socket is OPEN.

A frame whose `type` matches none of the three branches falls through:
no state change, no action. -/
def wsRecv (st : SysState) (sock : Nat) (inb : Inbound) (now : Nat)
    (isOpen : Nat → Bool) (createOk : Bool) : SysState × List Action :=
  match inb with
  | .malformed => (st, [Action.send sock OutFrame.error])
  | .frame d =>
      let u1 := if d.type = JVal.str "auth" then d.userId else getSockUser st.sockUser sock
      let conns1 := if d.type = JVal.str "auth" then mapSet st.conns d.userId sock else st.conns
      let su1 := if d.type = JVal.str "auth" then setSockUser st.sockUser sock d.userId else st.sockUser
      if d.type = JVal.str "message" ∧ u1.truthy = true then
        match insertMessageSchemaParse u1 d.receiverId d.content (jsOrNull d.imageData) with
        | none => (⟨conns1, su1, st.store⟩, [Action.send sock OutFrame.error])
        | some im =>
            if createOk then
              let pr := st.store.createMessage im now
              (⟨conns1, su1, pr.snd⟩,
                Action.callCreateMessage im ::
                  (routePush conns1 isOpen d.receiverId (OutFrame.message pr.fst) ++
                    [Action.send sock (OutFrame.messageSent pr.fst)]))
            else
              (⟨conns1, su1, st.store⟩,
                [Action.callCreateMessage im, Action.send sock OutFrame.error])
      else if d.type = JVal.str "mark_read" ∧ u1.truthy = true then
        (⟨conns1, su1, markReadCall st.store u1 d.senderId⟩,
          Action.callMarkRead u1 d.senderId ::
            routePush conns1 isOpen d.senderId (OutFrame.messagesRead u1))
      else
        (⟨conns1, su1, st.store⟩, [])

/-- The `ws.on('close', ...)` handler: `if (userId)
connections.delete(userId)`.  The closure variable keyed by the closing
socket's own identity is consulted, not the registry. -/
def wsClose (st : SysState) (sock : Nat) : SysState :=
  if (getSockUser st.sockUser sock).truthy = true then
    { st with conns := mapDelete st.conns (getSockUser st.sockUser sock) }
  else st

/-! ## Concrete fixtures shared by the claim theorems -/

/-- An `auth` frame carrying `userId`. -/
def authData (u : JVal) : Data :=
  ⟨JVal.str "auth", u, JVal.undef, JVal.undef, JVal.undef, JVal.undef⟩

/-- A `message` frame carrying `receiverId`, `content`, `imageData`. -/
def messageData (r c i : JVal) : Data :=
  ⟨JVal.str "message", JVal.undef, r, c, i, JVal.undef⟩

/-- A `mark_read` frame carrying `senderId`. -/
def markReadData (s : JVal) : Data :=
  ⟨JVal.str "mark_read", JVal.undef, JVal.undef, JVal.undef, JVal.undef, s⟩

/-- The state right after server start: no registry entries, no sockets
seen, empty store. -/
def emptyState : SysState := ⟨[], [], ⟨[], 1⟩⟩

/-- Socket open-state environment where no socket is OPEN. -/
def allClosed : Nat → Bool := fun _ => false

/-- Socket open-state environment where every socket is OPEN. -/
def allOpen : Nat → Bool := fun _ => true

/-! ## Registry and closure-variable lemmas -/

theorem mapGet_mapSet_self (m : Conns) (k : JVal) (v : Nat) :
    mapGet (mapSet m k v) k = some v := by
  induction m with
  | nil => simp [mapSet, mapGet]
  | cons p rest ih =>
      by_cases h : p.1 = k
      · simp [mapSet, h, mapGet]
      · simp [mapSet, h, mapGet, ih]

theorem mapGet_mapSet_ne (m : Conns) (k k' : JVal) (v : Nat) (h : k' ≠ k) :
    mapGet (mapSet m k v) k' = mapGet m k' := by
  have hne : ¬(k = k') := fun hh => h hh.symm
  induction m with
  | nil => simp [mapSet, mapGet, hne]
  | cons p rest ih =>
      by_cases hk : p.1 = k
      · simp [mapSet, hk, mapGet, hne]
      · simp [mapSet, hk, mapGet, ih]

theorem mapGet_mapDelete_self (m : Conns) (k : JVal) :
    mapGet (mapDelete m k) k = none := by
  induction m with
  | nil => simp [mapDelete, mapGet]
  | cons p rest ih =>
      by_cases h : p.1 = k
      · simp [mapDelete, h, ih]
      · simp [mapDelete, h, mapGet, ih]

theorem mapGet_mapDelete_ne (m : Conns) (k k' : JVal) (h : k' ≠ k) :
    mapGet (mapDelete m k) k' = mapGet m k' := by
  have hne : ¬(k = k') := fun hh => h hh.symm
  induction m with
  | nil => simp [mapDelete]
  | cons p rest ih =>
      by_cases hk : p.1 = k
      · simp [mapDelete, hk, mapGet, hne, ih]
      · simp [mapDelete, hk, mapGet, ih]

theorem getSockUser_setSockUser_self (l : SockUsers) (sock : Nat) (u : JVal) :
    getSockUser (setSockUser l sock u) sock = u := by
  induction l with
  | nil => simp [setSockUser, getSockUser]
  | cons p rest ih =>
      by_cases h : p.1 = sock
      · simp [setSockUser, h, getSockUser]
      · simp [setSockUser, h, getSockUser, ih]

/-! ## Branch lemmas for the frame handler -/

theorem wsRecv_malformed (st : SysState) (sock : Nat) (now : Nat)
    (io : Nat → Bool) (co : Bool) :
    wsRecv st sock Inbound.malformed now io co = (st, [Action.send sock OutFrame.error]) := rfl

theorem wsRecv_auth (st : SysState) (sock : Nat) (d : Data) (now : Nat)
    (io : Nat → Bool) (co : Bool) (h : d.type = JVal.str "auth") :
    wsRecv st sock (Inbound.frame d) now io co =
      ({ conns := mapSet st.conns d.userId sock
         sockUser := setSockUser st.sockUser sock d.userId
         store := st.store }, []) := by
  simp [wsRecv, h]

theorem wsRecv_ignored (st : SysState) (sock : Nat) (d : Data) (now : Nat)
    (io : Nat → Bool) (co : Bool)
    (h1 : d.type ≠ JVal.str "auth")
    (h2 : ¬(d.type = JVal.str "message" ∧ (getSockUser st.sockUser sock).truthy = true))
    (h3 : ¬(d.type = JVal.str "mark_read" ∧ (getSockUser st.sockUser sock).truthy = true)) :
    wsRecv st sock (Inbound.frame d) now io co = (st, []) := by
  simp only [wsRecv, if_neg h1]
  rw [if_neg h2, if_neg h3]

theorem wsRecv_message_valid (st : SysState) (sock : Nat) (d : Data) (now : Nat)
    (io : Nat → Bool) (im : InsertMessage)
    (h : d.type = JVal.str "message")
    (ht : (getSockUser st.sockUser sock).truthy = true)
    (hp : insertMessageSchemaParse (getSockUser st.sockUser sock) d.receiverId
            d.content (jsOrNull d.imageData) = some im) :
    wsRecv st sock (Inbound.frame d) now io true =
      ({ conns := st.conns, sockUser := st.sockUser,
         store := (st.store.createMessage im now).snd },
       Action.callCreateMessage im ::
         (routePush st.conns io d.receiverId
            (OutFrame.message (st.store.createMessage im now).fst) ++
          [Action.send sock (OutFrame.messageSent (st.store.createMessage im now).fst)])) := by
  simp [wsRecv, h, ht, hp]

theorem wsRecv_message_invalid (st : SysState) (sock : Nat) (d : Data) (now : Nat)
    (io : Nat → Bool) (co : Bool)
    (h : d.type = JVal.str "message")
    (ht : (getSockUser st.sockUser sock).truthy = true)
    (hp : insertMessageSchemaParse (getSockUser st.sockUser sock) d.receiverId
            d.content (jsOrNull d.imageData) = none) :
    wsRecv st sock (Inbound.frame d) now io co = (st, [Action.send sock OutFrame.error]) := by
  simp [wsRecv, h, ht, hp]

theorem wsRecv_message_storefail (st : SysState) (sock : Nat) (d : Data) (now : Nat)
    (io : Nat → Bool) (im : InsertMessage)
    (h : d.type = JVal.str "message")
    (ht : (getSockUser st.sockUser sock).truthy = true)
    (hp : insertMessageSchemaParse (getSockUser st.sockUser sock) d.receiverId
            d.content (jsOrNull d.imageData) = some im) :
    wsRecv st sock (Inbound.frame d) now io false =
      (st, [Action.callCreateMessage im, Action.send sock OutFrame.error]) := by
  simp [wsRecv, h, ht, hp]

theorem wsRecv_mark_read (st : SysState) (sock : Nat) (d : Data) (now : Nat)
    (io : Nat → Bool) (co : Bool)
    (h : d.type = JVal.str "mark_read")
    (ht : (getSockUser st.sockUser sock).truthy = true) :
    wsRecv st sock (Inbound.frame d) now io co =
      ({ conns := st.conns, sockUser := st.sockUser,
         store := markReadCall st.store (getSockUser st.sockUser sock) d.senderId },
       Action.callMarkRead (getSockUser st.sockUser sock) d.senderId ::
         routePush st.conns io d.senderId
           (OutFrame.messagesRead (getSockUser st.sockUser sock))) := by
  simp [wsRecv, h, ht]

/-! ## Action classifiers and further helper lemmas -/

/-- A write of a `message` push or a `message_sent` confirmation — the
two frames that carry a (supposedly persisted) message. -/
def Action.isMsgSend : Action → Bool
  | .send _ (.message _) => true
  | .send _ (.messageSent _) => true
  | _ => false

/-- A `createMessage` store call. -/
def Action.isCreate : Action → Bool
  | .callCreateMessage _ => true
  | _ => false

/-- A write of a `message_sent` confirmation frame. -/
def Action.isSentConfirm : Action → Bool
  | .send _ (.messageSent _) => true
  | _ => false

/-- A write of a `message` push frame (to the recipient). -/
def Action.isRecipientPush : Action → Bool
  | .send _ (.message _) => true
  | _ => false

/-- Inversion of schema validation: a successful parse pins down the
runtime shapes — numbers for the identities, a string for the content. -/
theorem insertMessageSchemaParse_inv (a b c i : JVal) (im : InsertMessage)
    (hp : insertMessageSchemaParse a b c i = some im) :
    a = JVal.num im.senderId ∧ b = JVal.num im.receiverId ∧ c = JVal.str im.content := by
  unfold insertMessageSchemaParse at hp
  split at hp
  · split at hp
    · injection hp with hp; subst hp; exact ⟨rfl, rfl, rfl⟩
    · injection hp with hp; subst hp; exact ⟨rfl, rfl, rfl⟩
    · injection hp with hp; subst hp; exact ⟨rfl, rfl, rfl⟩
    · exact absurd hp (by simp)
  · exact absurd hp (by simp)

/-- The per-message pass is idempotent. -/
theorem markReadFun_idem (r s : Int) (m : Message) :
    markReadFun r s (markReadFun r s m) = markReadFun r s m := by
  unfold markReadFun
  by_cases h1 : m.receiverId = r
  · by_cases h2 : m.senderId = s
    · by_cases h3 : m.isRead = false
      · simp [h1, h2, h3]
      · simp [h1, h2, h3]
    · simp [h2]
  · simp [h1]

/-- One `markMessagesAsRead` pass is idempotent on the store. -/
theorem markMessagesAsRead_idem (stm : Store) (r s : Int) :
    (stm.markMessagesAsRead r s).markMessagesAsRead r s = stm.markMessagesAsRead r s := by
  show Store.mk ((stm.messages.map (markReadFun r s)).map (markReadFun r s)) stm.nextMessageId =
    Store.mk (stm.messages.map (markReadFun r s)) stm.nextMessageId
  rw [List.map_map]
  refine congrArg (fun l => Store.mk l stm.nextMessageId) ?_
  refine List.map_congr_left ?_
  intro m _
  exact markReadFun_idem r s m

/-- The handler-side store call is idempotent for any runtime argument
shapes. -/
theorem markReadCall_idem (stm : Store) (u ds : JVal) :
    markReadCall (markReadCall stm u ds) u ds = markReadCall stm u ds := by
  cases u <;> cases ds <;> simp [markReadCall, markMessagesAsRead_idem]

theorem routePush_none (conns : Conns) (io : Nat → Bool) (key : JVal)
    (f : OutFrame) (hm : mapGet conns key = none) :
    routePush conns io key f = [] := by
  unfold routePush
  rw [hm]

theorem routePush_some (conns : Conns) (io : Nat → Bool) (key : JVal)
    (f : OutFrame) (ws' : Nat) (hm : mapGet conns key = some ws') :
    routePush conns io key f = if io ws' then [Action.send ws' f] else [] := by
  unfold routePush
  rw [hm]

/-- Membership in a deliver-if-online write list. -/
theorem mem_routePush (conns : Conns) (io : Nat → Bool) (key : JVal)
    (f : OutFrame) (ws : Nat) (g : OutFrame) :
    Action.send ws g ∈ routePush conns io key f ↔
      (mapGet conns key = some ws ∧ io ws = true ∧ g = f) := by
  cases hm : mapGet conns key with
  | none =>
      rw [routePush_none conns io key f hm]
      simp only [List.not_mem_nil, false_iff]
      rintro ⟨h1, -, -⟩
      exact Option.noConfusion h1
  | some ws' =>
      rw [routePush_some conns io key f ws' hm]
      by_cases ho : io ws' = true
      · rw [if_pos ho]
        simp only [List.mem_singleton, Action.send.injEq]
        constructor
        · rintro ⟨rfl, rfl⟩
          exact ⟨rfl, ho, rfl⟩
        · rintro ⟨h1, -, h3⟩
          injection h1 with h1
          exact ⟨h1.symm, h3⟩
      · rw [if_neg ho]
        simp only [List.not_mem_nil, false_iff]
        rintro ⟨h1, h2, -⟩
        injection h1 with h1
        exact absurd h2 (h1 ▸ ho)

/-! ## Auth-sequence machinery (for the registry overwrite property) -/

/-- Replay a chronological list of `(socket, userId)` auth frames
through the handler. -/
def applyAuths (st : SysState) (evs : List (Nat × JVal)) : SysState :=
  evs.foldl (fun s e => (wsRecv s e.1 (Inbound.frame (authData e.2)) 0 allClosed true).fst) st

/-- The socket of the chronologically last auth frame for `u`, if any. -/
def lastAuthSock : List (Nat × JVal) → JVal → Option Nat
  | [], _ => none
  | e :: evs, u =>
      match lastAuthSock evs u with
      | some s => some s
      | none => if e.2 = u then some e.1 else none

theorem applyAuths_cons (st : SysState) (e : Nat × JVal) (evs : List (Nat × JVal)) :
    applyAuths st (e :: evs) =
      applyAuths ((wsRecv st e.1 (Inbound.frame (authData e.2)) 0 allClosed true).fst) evs := rfl

theorem authStep_conns (st : SysState) (sock : Nat) (u : JVal) :
    ((wsRecv st sock (Inbound.frame (authData u)) 0 allClosed true).fst).conns =
      mapSet st.conns u sock := by
  rw [wsRecv_auth st sock (authData u) 0 allClosed true rfl]
  rfl

theorem applyAuths_no_auth :
    ∀ (evs : List (Nat × JVal)) (st : SysState) (u : JVal),
      lastAuthSock evs u = none →
      mapGet (applyAuths st evs).conns u = mapGet st.conns u := by
  intro evs
  induction evs with
  | nil => intro st u _; rfl
  | cons e evs ih =>
      intro st u hnone
      cases hrec : lastAuthSock evs u with
      | some s =>
          simp only [lastAuthSock, hrec] at hnone
          exact Option.noConfusion hnone
      | none =>
          simp only [lastAuthSock, hrec] at hnone
          by_cases he : e.2 = u
          · rw [if_pos he] at hnone
            exact Option.noConfusion hnone
          · rw [applyAuths_cons, ih _ u hrec, authStep_conns,
              mapGet_mapSet_ne _ _ _ _ (fun hh => he hh.symm)]

theorem applyAuths_last :
    ∀ (evs : List (Nat × JVal)) (st : SysState) (u : JVal) (s : Nat),
      lastAuthSock evs u = some s →
      mapGet (applyAuths st evs).conns u = some s := by
  intro evs
  induction evs with
  | nil => intro st u s h; simp [lastAuthSock] at h
  | cons e evs ih =>
      intro st u s h
      rw [applyAuths_cons]
      cases hrec : lastAuthSock evs u with
      | some s' =>
          simp only [lastAuthSock, hrec, Option.some.injEq] at h
          exact h ▸ ih _ u s' hrec
      | none =>
          simp only [lastAuthSock, hrec] at h
          by_cases he : e.2 = u
          · rw [if_pos he] at h
            rw [applyAuths_no_auth evs _ u hrec, authStep_conns, he,
              mapGet_mapSet_self]
            exact h
          · rw [if_neg he] at h
            exact Option.noConfusion h

/-- A server state with one authenticated socket: socket 1 bound as
user 1 in its closure; registry as after a fresh auth would be empty of
other users (here kept empty to keep the receiver offline). -/
def authedState1 : SysState := ⟨[], [(1, JVal.num 1)], ⟨[], 1⟩⟩

/-- Shape of the trace of any `message`-typed frame: nothing (ignored
while unauthenticated), a single error frame (validation failed), or a
trace that begins with the `createMessage` store call. -/
theorem message_trace_shape (st : SysState) (sock : Nat) (d : Data) (now : Nat)
    (io : Nat → Bool) (co : Bool) (h : d.type = JVal.str "message") :
    (wsRecv st sock (Inbound.frame d) now io co).snd = [] ∨
    (wsRecv st sock (Inbound.frame d) now io co).snd = [Action.send sock OutFrame.error] ∨
    ∃ im rest, (wsRecv st sock (Inbound.frame d) now io co).snd =
      Action.callCreateMessage im :: rest := by
  by_cases ht : (getSockUser st.sockUser sock).truthy = true
  · cases hp : insertMessageSchemaParse (getSockUser st.sockUser sock) d.receiverId
        d.content (jsOrNull d.imageData) with
    | none =>
        rw [wsRecv_message_invalid st sock d now io co h ht hp]
        exact Or.inr (Or.inl rfl)
    | some im =>
        cases co with
        | false =>
            rw [wsRecv_message_storefail st sock d now io im h ht hp]
            exact Or.inr (Or.inr ⟨im, _, rfl⟩)
        | true =>
            rw [wsRecv_message_valid st sock d now io im h ht hp]
            exact Or.inr (Or.inr ⟨im, _, rfl⟩)
  · have h1 : d.type ≠ JVal.str "auth" := by rw [h]; simp
    rw [wsRecv_ignored st sock d now io co h1 (fun hc => ht hc.2) (fun hc => ht hc.2)]
    exact Or.inl rfl

/-- In a trace of any of the three shapes above, every write of a
message-carrying frame is preceded by a `createMessage` call. -/
theorem head_create_of_send (tr : List Action) (sock : Nat)
    (hshape : tr = [] ∨ tr = [Action.send sock OutFrame.error] ∨
      ∃ im rest, tr = Action.callCreateMessage im :: rest) :
    ∀ j (hj : j < tr.length), (tr.get ⟨j, hj⟩).isMsgSend = true →
      ∃ i, ∃ hi : i < tr.length, i < j ∧ (tr.get ⟨i, hi⟩).isCreate = true := by
  rcases hshape with h | h | ⟨im, rest, h⟩ <;> subst h
  · intro j hj hs
    exact absurd hj (by simp)
  · intro j hj hs
    have hj0 : j = 0 := Nat.lt_one_iff.mp (by simpa using hj)
    subst hj0
    exact Bool.noConfusion hs
  · intro j hj hs
    cases j with
    | zero => exact Bool.noConfusion hs
    | succ j' => exact ⟨0, Nat.succ_pos _, Nat.succ_pos _, rfl⟩

/-! ## Claim theorems -/

/-- **C1** (persist-before-deliver): for every `message`-typed frame on
any socket, (1) any write of a `message` push or `message_sent`
confirmation frame occurs strictly after a `createMessage` call in the
handler's action trace, and (2) when the awaited `createMessage` call
rejects (`createOk = false`), the trace contains no message push and no
confirmation: it is empty (unauthenticated socket), a single `error`
frame to the sender (validation failure, store never called), or the
failed store call followed by the per-frame catch's single `error`
frame. -/
theorem c1_persist_before_deliver (st : SysState) (sock : Nat) (d : Data)
    (now : Nat) (io : Nat → Bool) (co : Bool)
    (h : d.type = JVal.str "message") :
    (∀ j (hj : j < ((wsRecv st sock (Inbound.frame d) now io co).snd).length),
        (((wsRecv st sock (Inbound.frame d) now io co).snd).get ⟨j, hj⟩).isMsgSend = true →
        ∃ i, ∃ hi : i < ((wsRecv st sock (Inbound.frame d) now io co).snd).length,
          i < j ∧ (((wsRecv st sock (Inbound.frame d) now io co).snd).get ⟨i, hi⟩).isCreate = true) ∧
    (co = false →
      (wsRecv st sock (Inbound.frame d) now io co).snd = [] ∨
      (wsRecv st sock (Inbound.frame d) now io co).snd = [Action.send sock OutFrame.error] ∨
      ∃ im, (wsRecv st sock (Inbound.frame d) now io co).snd =
        [Action.callCreateMessage im, Action.send sock OutFrame.error]) := by
  constructor
  · exact head_create_of_send _ sock (message_trace_shape st sock d now io co h)
  · intro hco
    subst hco
    by_cases ht : (getSockUser st.sockUser sock).truthy = true
    · cases hp : insertMessageSchemaParse (getSockUser st.sockUser sock) d.receiverId
          d.content (jsOrNull d.imageData) with
      | none =>
          rw [wsRecv_message_invalid st sock d now io false h ht hp]
          exact Or.inr (Or.inl rfl)
      | some im =>
          rw [wsRecv_message_storefail st sock d now io im h ht hp]
          exact Or.inr (Or.inr ⟨im, rfl⟩)
    · have h1 : d.type ≠ JVal.str "auth" := by rw [h]; simp
      rw [wsRecv_ignored st sock d now io false h1 (fun hc => ht hc.2) (fun hc => ht hc.2)]
      exact Or.inl rfl

/-- The trace of a valid message frame from the authenticated socket 1
when the store call rejects: concrete instance for the C1 witness. -/
def c1wTrace : List Action :=
  (wsRecv authedState1 1
    (Inbound.frame (messageData (JVal.num 2) (JVal.str "hi") JVal.undef))
    0 allClosed false).snd

/-- Witness for C1 at a concrete input (authenticated sender, valid
payload, rejecting store call). -/
theorem c1_persist_before_deliver_witness :
    (∀ j (hj : j < c1wTrace.length),
        (c1wTrace.get ⟨j, hj⟩).isMsgSend = true →
        ∃ i, ∃ hi : i < c1wTrace.length,
          i < j ∧ (c1wTrace.get ⟨i, hi⟩).isCreate = true) ∧
    (false = false →
      c1wTrace = [] ∨
      c1wTrace = [Action.send 1 OutFrame.error] ∨
      ∃ im, c1wTrace = [Action.callCreateMessage im, Action.send 1 OutFrame.error]) :=
  c1_persist_before_deliver authedState1 1
    (messageData (JVal.num 2) (JVal.str "hi") JVal.undef) 0 allClosed false rfl

/-- The registry after socket 1 and then socket 2 authenticate as
user 5. -/
def preCloseState : SysState :=
  (wsRecv ((wsRecv emptyState 1 (Inbound.frame (authData (JVal.num 5))) 0 allClosed true).fst)
    2 (Inbound.frame (authData (JVal.num 5))) 0 allClosed true).fst

/-- The same trace after the replaced socket 1 closes. -/
def staleCloseState : SysState := wsClose preCloseState 1

/-- **C2, counterexample**: socket 1 authenticates as user 5, socket 2
authenticates as user 5 (lookup now yields socket 2), then the *older,
already-replaced* socket 1 closes.  The claim says user 5's current
binding (socket 2) is left in place; the code deletes by the closing
socket's own `userId` closure variable, so the current binding is
removed and lookup yields nothing. -/
theorem c2_counterexample :
    mapGet preCloseState.conns (JVal.num 5) = some 2 ∧
    mapGet staleCloseState.conns (JVal.num 5) = none := by
  decide

/-- **C2, amended**: (1) after any chronological sequence of auth
frames, lookup of a user returns the socket of the most recent auth
frame for that user (each auth overwrites the prior binding without
closing the old socket); (2) a user's binding is removed whenever *any*
socket whose current closure identity is that user closes — in
particular, closing an older, already-replaced socket for the user
removes the user's current binding rather than leaving it in place. -/
theorem c2_registry_binding_amended :
    (∀ (st : SysState) (evs : List (Nat × JVal)) (u : JVal) (s : Nat),
        lastAuthSock evs u = some s →
        mapGet (applyAuths st evs).conns u = some s) ∧
    (∀ (st : SysState) (sock : Nat),
        (getSockUser st.sockUser sock).truthy = true →
        mapGet (wsClose st sock).conns (getSockUser st.sockUser sock) = none) := by
  constructor
  · intro st evs u s h
    exact applyAuths_last evs st u s h
  · intro st sock ht
    unfold wsClose
    rw [if_pos ht]
    exact mapGet_mapDelete_self _ _

/-- Witness for the amended C2: the auth sequence of the counterexample
trace yields lookup = socket 2, and closing the stale socket 1 (closure
identity user 5) empties user 5's binding. -/
theorem c2_registry_binding_amended_witness :
    mapGet (applyAuths emptyState [(1, JVal.num 5), (2, JVal.num 5)]).conns (JVal.num 5) = some 2 ∧
    mapGet (wsClose preCloseState 1).conns (getSockUser preCloseState.sockUser 1) = none :=
  ⟨c2_registry_binding_amended.1 emptyState [(1, JVal.num 5), (2, JVal.num 5)] (JVal.num 5) 2 (by decide),
   c2_registry_binding_amended.2 preCloseState 1 (by decide)⟩

/-- **C3** (unconditional confirmation): for every message frame from an
authenticated socket whose payload passes validation and whose
persistence succeeds, the trace contains exactly one `message_sent`
write, it goes to the sending socket, and it carries the just-persisted
message — for *every* registry content and every socket open-state
environment `io`, i.e. regardless of whether the receiver is online.
Socket write outcomes are not inputs of the handler (`ws` surfaces write
failures on an OPEN socket asynchronously, never as an exception in the
handler), so a failed push to the receiver cannot affect the
confirmation. -/
theorem c3_unconditional_confirmation (st : SysState) (sock : Nat) (d : Data)
    (now : Nat) (io : Nat → Bool) (im : InsertMessage)
    (h : d.type = JVal.str "message")
    (ht : (getSockUser st.sockUser sock).truthy = true)
    (hp : insertMessageSchemaParse (getSockUser st.sockUser sock) d.receiverId
            d.content (jsOrNull d.imageData) = some im) :
    ((wsRecv st sock (Inbound.frame d) now io true).snd).filter Action.isSentConfirm =
      [Action.send sock (OutFrame.messageSent (st.store.createMessage im now).fst)] := by
  rw [wsRecv_message_valid st sock d now io im h ht hp]
  cases hr : mapGet st.conns d.receiverId with
  | none =>
      rw [routePush_none st.conns io d.receiverId _ hr]
      rfl
  | some rsock =>
      rw [routePush_some st.conns io d.receiverId _ rsock hr]
      by_cases ho : io rsock = true
      · rw [if_pos ho]
        rfl
      · rw [if_neg ho]
        rfl

/-- Witness for C3: sender socket 1 (user 1), receiver user 2 offline
(empty registry, all sockets closed) — the confirmation is still the
unique `message_sent` write. -/
theorem c3_unconditional_confirmation_witness :
    ((wsRecv authedState1 1
        (Inbound.frame (messageData (JVal.num 2) (JVal.str "hello") JVal.undef))
        3 allClosed true).snd).filter Action.isSentConfirm =
      [Action.send 1 (OutFrame.messageSent
        (authedState1.store.createMessage ⟨1, 2, "hello", none⟩ 3).fst)] :=
  c3_unconditional_confirmation authedState1 1
    (messageData (JVal.num 2) (JVal.str "hello") JVal.undef) 3 allClosed
    ⟨1, 2, "hello", none⟩ rfl (by decide) rfl

/-- A frame whose `type` matches none of the handler's three branches. -/
def bogusData : Data :=
  ⟨JVal.str "bogus", JVal.undef, JVal.undef, JVal.undef, JVal.undef, JVal.undef⟩

/-- A `message` frame whose `content` field is a number, failing schema
validation. -/
def badContentData : Data := messageData (JVal.num 2) (JVal.num 7) JVal.undef

/-- **C4, counterexample**: a parsed frame with the unknown type
`"bogus"` matches none of the three `if` branches and raises nothing, so
the originating socket receives *no* frame at all — in particular not
the `error` frame the claim promises for every malformed frame.  (The
state is also unchanged, so the connection is unaffected.) -/
theorem c4_counterexample :
    wsRecv emptyState 1 (Inbound.frame bogusData) 0 allClosed true = (emptyState, []) := by
  decide

/-- **C4, amended**: (1) invalid JSON is caught and answered with an
`error` frame; (2) a parsed frame of unrecognized type is silently
ignored — no response frame of any kind; (3) a handler-raised error on
an authenticated `message` frame (schema validation failure) is caught
and answered with an `error` frame.  In every case the returned state is
the unchanged input state: the connection is not closed, and a
subsequent valid frame is processed from the same state. -/
theorem c4_malformed_handling_amended :
    (∀ (st : SysState) (sock now : Nat) (io : Nat → Bool) (co : Bool),
        wsRecv st sock Inbound.malformed now io co =
          (st, [Action.send sock OutFrame.error])) ∧
    (∀ (st : SysState) (sock : Nat) (d : Data) (now : Nat) (io : Nat → Bool) (co : Bool),
        d.type ≠ JVal.str "auth" → d.type ≠ JVal.str "message" →
        d.type ≠ JVal.str "mark_read" →
        wsRecv st sock (Inbound.frame d) now io co = (st, [])) ∧
    (∀ (st : SysState) (sock : Nat) (d : Data) (now : Nat) (io : Nat → Bool) (co : Bool),
        d.type = JVal.str "message" →
        (getSockUser st.sockUser sock).truthy = true →
        insertMessageSchemaParse (getSockUser st.sockUser sock) d.receiverId
          d.content (jsOrNull d.imageData) = none →
        wsRecv st sock (Inbound.frame d) now io co =
          (st, [Action.send sock OutFrame.error])) := by
  refine ⟨fun st sock now io co => wsRecv_malformed st sock now io co,
    fun st sock d now io co h1 h2 h3 => ?_,
    fun st sock d now io co h ht hp => wsRecv_message_invalid st sock d now io co h ht hp⟩
  exact wsRecv_ignored st sock d now io co h1 (fun hc => h2 hc.1) (fun hc => h3 hc.1)

/-- Witness for the amended C4 at concrete inputs: a malformed-JSON
event, the `"bogus"` frame, and an authenticated message frame with a
numeric `content`. -/
theorem c4_malformed_handling_amended_witness :
    wsRecv emptyState 1 Inbound.malformed 0 allClosed true =
      (emptyState, [Action.send 1 OutFrame.error]) ∧
    wsRecv emptyState 1 (Inbound.frame bogusData) 5 allOpen true = (emptyState, []) ∧
    wsRecv authedState1 1 (Inbound.frame badContentData) 0 allClosed true =
      (authedState1, [Action.send 1 OutFrame.error]) :=
  ⟨c4_malformed_handling_amended.1 emptyState 1 0 allClosed true,
   c4_malformed_handling_amended.2.1 emptyState 1 bogusData 5 allOpen true
     (by decide) (by decide) (by decide),
   c4_malformed_handling_amended.2.2 authedState1 1 badContentData 0 allClosed true
     rfl (by decide) rfl⟩

/-- **C5** (authorization gap): a `message` or `mark_read` frame on a
socket whose closure identity is still falsy (never successfully
authenticated) is silently ignored: the returned state is the unchanged
input state (so no `createMessage` or `markMessagesAsRead` call happened
and the registry is untouched) and the action trace is empty (no frame
is emitted). -/
theorem c5_preauth_frames_ignored (st : SysState) (sock : Nat) (d : Data)
    (now : Nat) (io : Nat → Bool) (co : Bool)
    (hu : (getSockUser st.sockUser sock).truthy = false)
    (hd : d.type = JVal.str "message" ∨ d.type = JVal.str "mark_read") :
    wsRecv st sock (Inbound.frame d) now io co = (st, []) := by
  have h1 : d.type ≠ JVal.str "auth" := by
    rcases hd with h | h <;> rw [h] <;> simp
  refine wsRecv_ignored st sock d now io co h1 ?_ ?_ <;>
    exact fun hc => Bool.noConfusion (hu ▸ hc.2)

/-- Witness for C5: a fresh socket (closure identity `null`) sends a
well-formed message frame; nothing happens. -/
theorem c5_preauth_frames_ignored_witness :
    wsRecv emptyState 1
      (Inbound.frame (messageData (JVal.num 2) (JVal.str "hi") JVal.undef))
      0 allClosed true = (emptyState, []) :=
  c5_preauth_frames_ignored emptyState 1
    (messageData (JVal.num 2) (JVal.str "hi") JVal.undef) 0 allClosed true
    (by decide) (Or.inl rfl)

/-- **C6** (conditional push): for every valid message frame from an
authenticated socket with successful persistence, (1) the `message`
push writes of the trace are exactly the deliver-if-online result for
`data.receiverId`, and (2) a push of the persisted message reaches
socket `rs` iff the registry maps `data.receiverId` to `rs` and `rs` is
OPEN at the moment of the delivery attempt. -/
theorem c6_conditional_push (st : SysState) (sock : Nat) (d : Data)
    (now : Nat) (io : Nat → Bool) (im : InsertMessage)
    (h : d.type = JVal.str "message")
    (ht : (getSockUser st.sockUser sock).truthy = true)
    (hp : insertMessageSchemaParse (getSockUser st.sockUser sock) d.receiverId
            d.content (jsOrNull d.imageData) = some im) :
    ((wsRecv st sock (Inbound.frame d) now io true).snd).filter Action.isRecipientPush =
      routePush st.conns io d.receiverId
        (OutFrame.message (st.store.createMessage im now).fst) ∧
    (∀ rs : Nat,
      Action.send rs (OutFrame.message (st.store.createMessage im now).fst) ∈
          (wsRecv st sock (Inbound.frame d) now io true).snd ↔
        (mapGet st.conns d.receiverId = some rs ∧ io rs = true)) := by
  constructor
  · rw [wsRecv_message_valid st sock d now io im h ht hp]
    cases hr : mapGet st.conns d.receiverId with
    | none =>
        rw [routePush_none st.conns io d.receiverId _ hr]
        rfl
    | some rsock =>
        rw [routePush_some st.conns io d.receiverId _ rsock hr]
        by_cases ho : io rsock = true
        · rw [if_pos ho]
          rfl
        · rw [if_neg ho]
          rfl
  · intro rs
    rw [wsRecv_message_valid st sock d now io im h ht hp]
    constructor
    · intro hmem
      rcases List.mem_cons.mp hmem with hc | hmem2
      · exact absurd hc (by simp)
      · rcases List.mem_append.mp hmem2 with hpush | hsent
        · obtain ⟨hm, ho, -⟩ := (mem_routePush st.conns io d.receiverId _ rs _).mp hpush
          exact ⟨hm, ho⟩
        · exact absurd (List.mem_singleton.mp hsent) (by simp)
    · rintro ⟨hm, ho⟩
      refine List.mem_cons.mpr (Or.inr (List.mem_append.mpr (Or.inl ?_)))
      exact (mem_routePush st.conns io d.receiverId _ rs _).mpr ⟨hm, ho, rfl⟩

/-- Two authenticated sockets: socket 1 is user 1, socket 2 is user 2,
and user 2 has a registry binding to socket 2. -/
def authedPairState : SysState :=
  ⟨[(JVal.num 2, 2)], [(1, JVal.num 1), (2, JVal.num 2)], ⟨[], 1⟩⟩

/-- Witness for C6: user 1 messages user 2, whose socket 2 is registered
and open. -/
theorem c6_conditional_push_witness :
    ((wsRecv authedPairState 1
        (Inbound.frame (messageData (JVal.num 2) (JVal.str "yo") JVal.undef))
        4 allOpen true).snd).filter Action.isRecipientPush =
      routePush authedPairState.conns allOpen (JVal.num 2)
        (OutFrame.message (authedPairState.store.createMessage ⟨1, 2, "yo", none⟩ 4).fst) ∧
    (∀ rs : Nat,
      Action.send rs (OutFrame.message
          (authedPairState.store.createMessage ⟨1, 2, "yo", none⟩ 4).fst) ∈
          (wsRecv authedPairState 1
            (Inbound.frame (messageData (JVal.num 2) (JVal.str "yo") JVal.undef))
            4 allOpen true).snd ↔
        (mapGet authedPairState.conns (JVal.num 2) = some rs ∧ allOpen rs = true)) :=
  c6_conditional_push authedPairState 1
    (messageData (JVal.num 2) (JVal.str "yo") JVal.undef) 4 allOpen
    ⟨1, 2, "yo", none⟩ rfl (by decide) rfl

/-- **C7, counterexample**: an authenticated sender submits a message
frame with `content = ""` and no `imageData` — both empty.  The claim
says validation rejects it with an `error` frame and nothing is
persisted; the code's `insertMessageSchema` only checks runtime types,
so the frame passes validation, a message with empty content and null
image is persisted, and a `message_sent` confirmation (not an error) is
returned. -/
theorem c7_counterexample :
    wsRecv authedState1 1
      (Inbound.frame (messageData (JVal.num 2) (JVal.str "") JVal.undef))
      7 allClosed true =
      ({ conns := [], sockUser := [(1, JVal.num 1)],
         store := { messages := [⟨1, 1, 2, "", none, 7, false⟩], nextMessageId := 2 } },
       [Action.callCreateMessage ⟨1, 2, "", none⟩,
        Action.send 1 (OutFrame.messageSent ⟨1, 1, 2, "", none, 7, false⟩)]) := by
  decide

/-- **C7, amended**: the handler validates via `insertMessageSchema`
that the sender and receiver identities are numbers and that `content`
is a string (1); a frame failing this validation yields an `error` frame
and an unchanged store (2); but no emptiness rule is enforced: an empty
`content` with absent `imageData` passes validation (3). -/
theorem c7_validation_amended :
    (∀ (a b c i : JVal) (im : InsertMessage),
        insertMessageSchemaParse a b c i = some im →
        a = JVal.num im.senderId ∧ b = JVal.num im.receiverId ∧
          c = JVal.str im.content) ∧
    (∀ (st : SysState) (sock : Nat) (d : Data) (now : Nat) (io : Nat → Bool) (co : Bool),
        d.type = JVal.str "message" →
        (getSockUser st.sockUser sock).truthy = true →
        insertMessageSchemaParse (getSockUser st.sockUser sock) d.receiverId
          d.content (jsOrNull d.imageData) = none →
        wsRecv st sock (Inbound.frame d) now io co =
          (st, [Action.send sock OutFrame.error])) ∧
    (∀ sv rv : Int,
        insertMessageSchemaParse (JVal.num sv) (JVal.num rv) (JVal.str "")
          (jsOrNull JVal.undef) = some ⟨sv, rv, "", none⟩) :=
  ⟨insertMessageSchemaParse_inv,
   fun st sock d now io co h ht hp => wsRecv_message_invalid st sock d now io co h ht hp,
   fun _ _ => rfl⟩

/-- Witness for the amended C7 at concrete inputs. -/
theorem c7_validation_amended_witness :
    (JVal.num 1 = JVal.num 1 ∧ JVal.num 2 = JVal.num 2 ∧ JVal.str "x" = JVal.str "x") ∧
    wsRecv authedState1 1
      (Inbound.frame (messageData (JVal.num 3) (JVal.boolean true) JVal.undef))
      0 allClosed true = (authedState1, [Action.send 1 OutFrame.error]) ∧
    insertMessageSchemaParse (JVal.num 4) (JVal.num 5) (JVal.str "")
      (jsOrNull JVal.undef) = some ⟨4, 5, "", none⟩ :=
  ⟨c7_validation_amended.1 (JVal.num 1) (JVal.num 2) (JVal.str "x") JVal.undef
     ⟨1, 2, "x", none⟩ rfl,
   c7_validation_amended.2.1 authedState1 1
     (messageData (JVal.num 3) (JVal.boolean true) JVal.undef) 0 allClosed true
     rfl (by decide) rfl,
   c7_validation_amended.2.2 4 5⟩

/-- **C8** (read idempotence): (1) `markMessagesAsRead` is idempotent on
the store — a second pass over the same (receiver, sender) pair flips
zero additional records; (2) processing the same `mark_read` frame a
second time from the state left by the first produces the identical
result — same state, and the same trace, so the `messages_read`
notification to the original sender fires again exactly when that
sender has an open registered socket. -/
theorem c8_mark_read_idempotent :
    (∀ (stm : Store) (r s : Int),
        (stm.markMessagesAsRead r s).markMessagesAsRead r s =
          stm.markMessagesAsRead r s) ∧
    (∀ (st : SysState) (sock : Nat) (d : Data) (now : Nat) (io : Nat → Bool) (co : Bool),
        d.type = JVal.str "mark_read" →
        wsRecv ((wsRecv st sock (Inbound.frame d) now io co).fst) sock
            (Inbound.frame d) now io co =
          wsRecv st sock (Inbound.frame d) now io co) := by
  refine ⟨markMessagesAsRead_idem, fun st sock d now io co h => ?_⟩
  by_cases ht : (getSockUser st.sockUser sock).truthy = true
  · have e1 := wsRecv_mark_read st sock d now io co h ht
    rw [e1]
    refine Eq.trans (wsRecv_mark_read _ sock d now io co h ht) ?_
    simp [markReadCall_idem]
  · have h1 : d.type ≠ JVal.str "auth" := by rw [h]; simp
    have e := wsRecv_ignored st sock d now io co h1
      (fun hc => by rw [h] at hc; exact absurd hc.1 (by simp))
      (fun hc => ht hc.2)
    rw [e]
    exact e

/-- A mark-read scenario: socket 1 is user 2 (the receiver), the
original sender user 1 is registered at socket 3, and the store holds
one unread message from user 1 to user 2. -/
def markReadScenarioState : SysState :=
  ⟨[(JVal.num 1, 3)], [(1, JVal.num 2)], ⟨[⟨1, 1, 2, "m", none, 0, false⟩], 2⟩⟩

/-- Witness for C8: replaying the same `mark_read` frame in the
scenario state reproduces the first result exactly. -/
theorem c8_mark_read_idempotent_witness :
    wsRecv ((wsRecv markReadScenarioState 1
        (Inbound.frame (markReadData (JVal.num 1))) 0 allOpen true).fst) 1
        (Inbound.frame (markReadData (JVal.num 1))) 0 allOpen true =
      wsRecv markReadScenarioState 1
        (Inbound.frame (markReadData (JVal.num 1))) 0 allOpen true :=
  c8_mark_read_idempotent.2 markReadScenarioState 1 (markReadData (JVal.num 1))
    0 allOpen true rfl

/-- **C9** (frame effect of mark-read): `markMessagesAsRead` preserves
the id counter and the number of stored messages (nothing is created or
deleted), and for every position the stored message keeps its `id`,
`senderId`, `receiverId`, `content`, `imageData` and `createdAt`
unchanged, while `isRead` becomes true exactly for previously-matching
messages: new `isRead` = old `isRead` OR (message matches the
(receiver, sender) pair).  Non-matching messages — including those in
the opposite direction — are unchanged in every field. -/
theorem c9_mark_read_frame_effect (stm : Store) (r s : Int) :
    (stm.markMessagesAsRead r s).nextMessageId = stm.nextMessageId ∧
    ((stm.markMessagesAsRead r s).messages).length = stm.messages.length ∧
    (∀ i (hi : i < stm.messages.length)
        (hi' : i < ((stm.markMessagesAsRead r s).messages).length),
      (((stm.markMessagesAsRead r s).messages).get ⟨i, hi'⟩).id =
          (stm.messages.get ⟨i, hi⟩).id ∧
      (((stm.markMessagesAsRead r s).messages).get ⟨i, hi'⟩).senderId =
          (stm.messages.get ⟨i, hi⟩).senderId ∧
      (((stm.markMessagesAsRead r s).messages).get ⟨i, hi'⟩).receiverId =
          (stm.messages.get ⟨i, hi⟩).receiverId ∧
      (((stm.markMessagesAsRead r s).messages).get ⟨i, hi'⟩).content =
          (stm.messages.get ⟨i, hi⟩).content ∧
      (((stm.markMessagesAsRead r s).messages).get ⟨i, hi'⟩).imageData =
          (stm.messages.get ⟨i, hi⟩).imageData ∧
      (((stm.markMessagesAsRead r s).messages).get ⟨i, hi'⟩).createdAt =
          (stm.messages.get ⟨i, hi⟩).createdAt ∧
      (((stm.markMessagesAsRead r s).messages).get ⟨i, hi'⟩).isRead =
        ((stm.messages.get ⟨i, hi⟩).isRead ||
          (decide ((stm.messages.get ⟨i, hi⟩).receiverId = r) &&
           decide ((stm.messages.get ⟨i, hi⟩).senderId = s)))) := by
  refine ⟨rfl, by simp [Store.markMessagesAsRead], ?_⟩
  intro i hi hi'
  have hget : ((stm.markMessagesAsRead r s).messages).get ⟨i, hi'⟩ =
      markReadFun r s (stm.messages.get ⟨i, hi⟩) := by
    simp [Store.markMessagesAsRead, List.get_eq_getElem, List.getElem_map]
  rw [hget]
  unfold markReadFun
  simp only [List.get_eq_getElem]
  split_ifs with hc
  · obtain ⟨h1, h2, h3⟩ := hc
    simp [h1, h2, h3]
  · refine ⟨rfl, rfl, rfl, rfl, rfl, rfl, ?_⟩
    by_cases h1 : (stm.messages[i]).receiverId = r
    · by_cases h2 : (stm.messages[i]).senderId = s
      · have h3 : (stm.messages[i]).isRead = true := by
          cases hh : (stm.messages[i]).isRead
          · exact absurd ⟨h1, h2, hh⟩ hc
          · rfl
        simp [h3]
      · simp [h2]
    · simp [h1]

/-- A store with one unread message in each direction between users 1
and 2. -/
def twoWayStore : Store :=
  ⟨[⟨1, 1, 2, "a", none, 0, false⟩, ⟨2, 2, 1, "b", none, 5, false⟩], 3⟩

/-- Witness for C9 at the two-message store, marking the 1→2 direction
read. -/
theorem c9_mark_read_frame_effect_witness :
    (twoWayStore.markMessagesAsRead 2 1).nextMessageId = twoWayStore.nextMessageId ∧
    ((twoWayStore.markMessagesAsRead 2 1).messages).length = twoWayStore.messages.length ∧
    (∀ i (hi : i < twoWayStore.messages.length)
        (hi' : i < ((twoWayStore.markMessagesAsRead 2 1).messages).length),
      (((twoWayStore.markMessagesAsRead 2 1).messages).get ⟨i, hi'⟩).id =
          (twoWayStore.messages.get ⟨i, hi⟩).id ∧
      (((twoWayStore.markMessagesAsRead 2 1).messages).get ⟨i, hi'⟩).senderId =
          (twoWayStore.messages.get ⟨i, hi⟩).senderId ∧
      (((twoWayStore.markMessagesAsRead 2 1).messages).get ⟨i, hi'⟩).receiverId =
          (twoWayStore.messages.get ⟨i, hi⟩).receiverId ∧
      (((twoWayStore.markMessagesAsRead 2 1).messages).get ⟨i, hi'⟩).content =
          (twoWayStore.messages.get ⟨i, hi⟩).content ∧
      (((twoWayStore.markMessagesAsRead 2 1).messages).get ⟨i, hi'⟩).imageData =
          (twoWayStore.messages.get ⟨i, hi⟩).imageData ∧
      (((twoWayStore.markMessagesAsRead 2 1).messages).get ⟨i, hi'⟩).createdAt =
          (twoWayStore.messages.get ⟨i, hi⟩).createdAt ∧
      (((twoWayStore.markMessagesAsRead 2 1).messages).get ⟨i, hi'⟩).isRead =
        ((twoWayStore.messages.get ⟨i, hi⟩).isRead ||
          (decide ((twoWayStore.messages.get ⟨i, hi⟩).receiverId = 2) &&
           decide ((twoWayStore.messages.get ⟨i, hi⟩).senderId = 1)))) :=
  c9_mark_read_frame_effect twoWayStore 2 1

/-- **C10** (re-authentication identity switch): on a socket already
authenticated as user `a` (with `a`'s registry binding pointing at it),
a second auth frame naming user `b ≠ a` (with `b` truthy, i.e. nonzero)
(1) rebinds the socket's closure identity to `b`, (2) binds `b` to the
socket in the registry, (3) leaves `a`'s registry entry in place
pointing at the same socket, (4) makes subsequent valid message frames
persist with `senderId = b` (the trace starts with the `createMessage`
call whose payload has sender `b`), and (5) on the socket's close
removes only `b`'s binding, leaving `a`'s entry pointing at the now
closed socket. -/
theorem c10_reauth_identity_switch (st : SysState) (sock : Nat) (a b : Int)
    (now : Nat) (io : Nat → Bool)
    (hab : a ≠ b) (hb : b ≠ 0)
    (hu : getSockUser st.sockUser sock = JVal.num a)
    (hc : mapGet st.conns (JVal.num a) = some sock) :
    getSockUser ((wsRecv st sock (Inbound.frame (authData (JVal.num b))) now io true).fst).sockUser sock =
      JVal.num b ∧
    mapGet ((wsRecv st sock (Inbound.frame (authData (JVal.num b))) now io true).fst).conns
      (JVal.num b) = some sock ∧
    mapGet ((wsRecv st sock (Inbound.frame (authData (JVal.num b))) now io true).fst).conns
      (JVal.num a) = some sock ∧
    (∀ (d2 : Data) (now2 : Nat) (io2 : Nat → Bool) (im : InsertMessage),
        d2.type = JVal.str "message" →
        insertMessageSchemaParse (JVal.num b) d2.receiverId d2.content
          (jsOrNull d2.imageData) = some im →
        ((wsRecv ((wsRecv st sock (Inbound.frame (authData (JVal.num b))) now io true).fst)
            sock (Inbound.frame d2) now2 io2 true).snd).head? =
            some (Action.callCreateMessage im) ∧
          im.senderId = b) ∧
    (mapGet (wsClose ((wsRecv st sock (Inbound.frame (authData (JVal.num b))) now io true).fst)
        sock).conns (JVal.num a) = some sock ∧
     mapGet (wsClose ((wsRecv st sock (Inbound.frame (authData (JVal.num b))) now io true).fst)
        sock).conns (JVal.num b) = none) := by
  have hne : JVal.num a ≠ JVal.num b := by
    intro hh
    injection hh with hh
    exact hab hh
  have hu1 : getSockUser ((wsRecv st sock (Inbound.frame (authData (JVal.num b))) now io true).fst).sockUser sock =
      JVal.num b := getSockUser_setSockUser_self st.sockUser sock (JVal.num b)
  have ht1 : (getSockUser ((wsRecv st sock (Inbound.frame (authData (JVal.num b))) now io true).fst).sockUser sock).truthy = true := by
    rw [hu1]
    exact decide_eq_true hb
  have hcl : wsClose ((wsRecv st sock (Inbound.frame (authData (JVal.num b))) now io true).fst) sock =
      { (wsRecv st sock (Inbound.frame (authData (JVal.num b))) now io true).fst with
        conns := mapDelete
          ((wsRecv st sock (Inbound.frame (authData (JVal.num b))) now io true).fst).conns
          (getSockUser ((wsRecv st sock (Inbound.frame (authData (JVal.num b))) now io true).fst).sockUser sock) } := by
    unfold wsClose
    rw [if_pos ht1]
  refine ⟨hu1, mapGet_mapSet_self st.conns (JVal.num b) sock,
    (mapGet_mapSet_ne st.conns (JVal.num b) (JVal.num a) sock hne).trans hc,
    ?_, ?_, ?_⟩
  · intro d2 now2 io2 im h2 hp2
    have hp2' : insertMessageSchemaParse
        (getSockUser ((wsRecv st sock (Inbound.frame (authData (JVal.num b))) now io true).fst).sockUser sock)
        d2.receiverId d2.content (jsOrNull d2.imageData) = some im := by
      rw [hu1]
      exact hp2
    rw [wsRecv_message_valid
      ((wsRecv st sock (Inbound.frame (authData (JVal.num b))) now io true).fst)
      sock d2 now2 io2 im h2 ht1 hp2']
    refine ⟨rfl, ?_⟩
    obtain ⟨ha, -, -⟩ := insertMessageSchemaParse_inv (JVal.num b) d2.receiverId
      d2.content (jsOrNull d2.imageData) im hp2
    injection ha with ha
    exact ha.symm
  · rw [hcl, hu1]
    exact (mapGet_mapDelete_ne
      ((wsRecv st sock (Inbound.frame (authData (JVal.num b))) now io true).fst).conns
      (JVal.num b) (JVal.num a) hne).trans
      ((mapGet_mapSet_ne st.conns (JVal.num b) (JVal.num a) sock hne).trans hc)
  · rw [hcl, hu1]
    exact mapGet_mapDelete_self
      ((wsRecv st sock (Inbound.frame (authData (JVal.num b))) now io true).fst).conns
      (JVal.num b)

/-- A socket already authenticated as user 1, with user 1's registry
binding pointing at it. -/
def reauthState : SysState := ⟨[(JVal.num 1, 1)], [(1, JVal.num 1)], ⟨[], 1⟩⟩

/-- Witness for C10: socket 1 switches from user 1 to user 2. -/
theorem c10_reauth_identity_switch_witness :
    getSockUser ((wsRecv reauthState 1 (Inbound.frame (authData (JVal.num 2))) 0 allOpen true).fst).sockUser 1 =
      JVal.num 2 ∧
    mapGet ((wsRecv reauthState 1 (Inbound.frame (authData (JVal.num 2))) 0 allOpen true).fst).conns
      (JVal.num 2) = some 1 ∧
    mapGet ((wsRecv reauthState 1 (Inbound.frame (authData (JVal.num 2))) 0 allOpen true).fst).conns
      (JVal.num 1) = some 1 ∧
    (∀ (d2 : Data) (now2 : Nat) (io2 : Nat → Bool) (im : InsertMessage),
        d2.type = JVal.str "message" →
        insertMessageSchemaParse (JVal.num 2) d2.receiverId d2.content
          (jsOrNull d2.imageData) = some im →
        ((wsRecv ((wsRecv reauthState 1 (Inbound.frame (authData (JVal.num 2))) 0 allOpen true).fst)
            1 (Inbound.frame d2) now2 io2 true).snd).head? =
            some (Action.callCreateMessage im) ∧
          im.senderId = 2) ∧
    (mapGet (wsClose ((wsRecv reauthState 1 (Inbound.frame (authData (JVal.num 2))) 0 allOpen true).fst)
        1).conns (JVal.num 1) = some 1 ∧
     mapGet (wsClose ((wsRecv reauthState 1 (Inbound.frame (authData (JVal.num 2))) 0 allOpen true).fst)
        1).conns (JVal.num 2) = none) :=
  c10_reauth_identity_switch reauthState 1 1 2 0 allOpen
    (by decide) (by decide) (by decide) (by decide)

end Chat
